import Mathlib

/-!
Verification of the patient-sample viewset
(`care/facility/api/viewsets/patient_sample.py`).

The Django viewset is shallowly embedded: the persistent store is a `DB`
record of lists, ORM querysets are Lean lists, `Q`-object filters are
boolean predicates, and the two-row transactional write is modelled with
explicit success flags for the individual row inserts so that the
rollback semantics of `transaction.atomic` is visible in the final state.
-/

/-- Modelled from the spec: the actor (`User` of `care.facility.models`,
not part of the sources here) carries a superuser flag, an integer role
rank (`user_type`), an organisational scope (state, district) and a
username. -/
structure User where
  id : Nat
  is_superuser : Bool
  user_type : Nat
  state : Nat
  district : Nat
  username : String
deriving DecidableEq

/-- Modelled from the spec: `User.TYPE_VALUE_MAP` is an ordered role-rank
table with generic roles below `DistrictLabAdmin` below `StateLabAdmin`.
Only the two ranks the filter consults are needed; the concrete numbers
only matter through their order. -/
def TYPE_VALUE_MAP (role : String) : Nat :=
  if role == "StateLabAdmin" then 35
  else if role == "DistrictLabAdmin" then 25
  else 10

/-- Modelled from the spec: a facility records who created it and its
state/district scope (`consultation__facility__...` lookups). -/
structure Facility where
  id : Nat
  created_by : Nat
  state : Nat
  district : Nat
  district_name : String
deriving DecidableEq

/-- Modelled from the spec: a consultation links a patient to a facility. -/
structure PatientConsultation where
  id : Nat
  patient_id : Nat
  facility_id : Nat
deriving DecidableEq

/-- Modelled from the spec: one biological sample; the consultation
reference is nullable. -/
structure PatientSample where
  id : Nat
  status : Nat
  result : Nat
  patient_id : Option Nat
  consultation_id : Option Nat
deriving DecidableEq

/-- Modelled from the spec: one append-only audit row
(`PatientSampleFlow`). -/
structure PatientSampleFlow where
  id : Nat
  patient_sample_id : Nat
  status : Nat
  notes : String
  created_by : Nat
  created_date : Nat
deriving DecidableEq

/-- The persistent store: the tables the viewset touches, a fresh-id
counter and a clock for `created_date`. -/
structure DB where
  facilities : List Facility
  consultations : List PatientConsultation
  samples : List PatientSample
  flows : List PatientSampleFlow
  next_id : Nat
  clock : Nat
deriving DecidableEq

/-- Follow the `consultation` foreign key of a sample. -/
def consultationOf (db : DB) (s : PatientSample) : Option PatientConsultation :=
  s.consultation_id.bind fun cid => db.consultations.find? fun c => c.id == cid

/-- Follow `consultation__facility` of a sample; `none` when either join
fails (a `Q` lookup over these paths then matches nothing). -/
def facilityOf (db : DB) (s : PatientSample) : Option Facility :=
  (consultationOf db s).bind fun c => db.facilities.find? fun f => f.id == c.facility_id

/-- `Q(consultation__facility__created_by=request.user)`. -/
def qCreatedBy (db : DB) (u : User) (s : PatientSample) : Bool :=
  match facilityOf db s with
  | some f => f.created_by == u.id
  | none => false

/-- `Q(consultation__facility__state=request.user.state)`. -/
def qStateMatches (db : DB) (u : User) (s : PatientSample) : Bool :=
  match facilityOf db s with
  | some f => f.state == u.state
  | none => false

/-- `Q(consultation__facility__district=request.user.district)`. -/
def qDistrictMatches (db : DB) (u : User) (s : PatientSample) : Bool :=
  match facilityOf db s with
  | some f => f.district == u.district
  | none => false

/-- `PatientSampleFilterBackend.filter_queryset`: superusers pass
through; otherwise the creator condition, `|=`-extended by the state
condition when `user_type >= TYPE_VALUE_MAP["StateLabAdmin"]`, `elif`
by the district condition when
`user_type >= TYPE_VALUE_MAP["DistrictLabAdmin"]`. -/
def filter_queryset (u : User) (db : DB) (qs : List PatientSample) : List PatientSample :=
  if u.is_superuser then qs
  else
    qs.filter fun s =>
      qCreatedBy db u s ||
        (if TYPE_VALUE_MAP "StateLabAdmin" ≤ u.user_type then qStateMatches db u s
         else if TYPE_VALUE_MAP "DistrictLabAdmin" ≤ u.user_type then qDistrictMatches db u s
         else false)

/-- Claim C1: for a superuser the visibility filter returns the candidate
set unfiltered; for every non-superuser actor it returns exactly the
samples of the set whose consultation facility was created by the actor,
unioned with the state-scope matches when the actor ranks at least
StateLabAdmin, else with the district-scope matches when the actor ranks
at least DistrictLabAdmin. -/
theorem claim_C1 (u : User) (db : DB) (qs : List PatientSample) (s : PatientSample) :
    (u.is_superuser = true → filter_queryset u db qs = qs) ∧
    (u.is_superuser = false →
      (s ∈ filter_queryset u db qs ↔
        s ∈ qs ∧ ∃ f, facilityOf db s = some f ∧
          (f.created_by = u.id
            ∨ (TYPE_VALUE_MAP "StateLabAdmin" ≤ u.user_type ∧ f.state = u.state)
            ∨ (¬ TYPE_VALUE_MAP "StateLabAdmin" ≤ u.user_type ∧
                TYPE_VALUE_MAP "DistrictLabAdmin" ≤ u.user_type ∧
                f.district = u.district)))) := by
  constructor
  · intro h
    simp [filter_queryset, h]
  · intro h
    simp only [filter_queryset, h, if_false, Bool.false_eq_true, List.mem_filter]
    constructor
    · rintro ⟨hmem, hcond⟩
      refine ⟨hmem, ?_⟩
      rcases hor : qCreatedBy db u s with _ | _
      · rw [hor, Bool.false_or] at hcond
        by_cases hst : TYPE_VALUE_MAP "StateLabAdmin" ≤ u.user_type
        · rw [if_pos hst] at hcond
          unfold qStateMatches at hcond
          rcases hf : facilityOf db s with _ | f
          · rw [hf] at hcond; exact absurd hcond (by simp)
          · rw [hf] at hcond
            exact ⟨f, rfl, Or.inr (Or.inl ⟨hst, by simpa using hcond⟩)⟩
        · rw [if_neg hst] at hcond
          by_cases hdt : TYPE_VALUE_MAP "DistrictLabAdmin" ≤ u.user_type
          · rw [if_pos hdt] at hcond
            unfold qDistrictMatches at hcond
            rcases hf : facilityOf db s with _ | f
            · rw [hf] at hcond; exact absurd hcond (by simp)
            · rw [hf] at hcond
              exact ⟨f, rfl, Or.inr (Or.inr ⟨hst, hdt, by simpa using hcond⟩)⟩
          · rw [if_neg hdt] at hcond
            exact absurd hcond (by simp)
      · unfold qCreatedBy at hor
        rcases hf : facilityOf db s with _ | f
        · rw [hf] at hor; exact absurd hor (by simp)
        · rw [hf] at hor
          exact ⟨f, rfl, Or.inl (by simpa using hor)⟩
    · rintro ⟨hmem, f, hf, hoc⟩
      refine ⟨hmem, ?_⟩
      rcases hoc with hcr | ⟨hst, hstate⟩ | ⟨hnst, hdt, hdist⟩
      · have : qCreatedBy db u s = true := by
          unfold qCreatedBy; rw [hf]; simpa using hcr
        simp [this]
      · have : qStateMatches db u s = true := by
          unfold qStateMatches; rw [hf]; simpa using hstate
        rw [if_pos hst, this, Bool.or_true]
      · have : qDistrictMatches db u s = true := by
          unfold qDistrictMatches; rw [hf]; simpa using hdist
        rw [if_neg hnst, if_pos hdt, this, Bool.or_true]

/-- A Python dict value slot: `none` models an absent key, `some none` a
key present with value `None`, `some (some n)` a key with an integer. -/
abbrev KeySlot := Option (Option Nat)

/-- Python truthiness of `validated_data.get(key)`: absent keys and
`None` are falsy, and so is the integer `0`. -/
def pyTruthy : KeySlot → Bool
  | some (some n) => n != 0
  | _ => false

/-- `serializer.validated_data` as the create/update paths read it:
linkage keys, the optional `notes`, and the optional sample fields the
serializer applies. -/
structure ValidatedData where
  patient_id : KeySlot
  consultation_id : KeySlot
  notes : Option String
  status : Option Nat
  result : Option Nat
deriving DecidableEq

/-- A `ValidationError` body: one field key and one message. -/
structure ValidationError where
  field : String
  msg : String
deriving DecidableEq

/-- Errors a write can surface: a field-keyed validation error, or a
database error raised by a row insert inside the transaction. -/
inductive WriteError where
  | validation (e : ValidationError)
  | databaseError
deriving DecidableEq

/-- The per-request context the viewset reads: `request.user` and
`self.kwargs.get("patient_pk")` from the nested route. -/
structure Request where
  user : User
  patient_pk : Option Nat
deriving DecidableEq

/-- Descending insertion by a numeric key (`order_by("-...")`). -/
def insertDesc (key : α → Nat) (x : α) : List α → List α
  | [] => [x]
  | y :: ys => if key y ≤ key x then x :: y :: ys else y :: insertDesc key x ys

/-- `order_by` on a descending numeric key, modelled as insertion sort. -/
def orderByDesc (key : α → Nat) : List α → List α
  | [] => []
  | x :: xs => insertDesc key x (orderByDesc key xs)

theorem mem_insertDesc (key : α → Nat) (x a : α) (l : List α) :
    a ∈ insertDesc key x l ↔ a = x ∨ a ∈ l := by
  induction l with
  | nil => simp [insertDesc]
  | cons y ys ih =>
      by_cases h : key y ≤ key x
      · simp [insertDesc, h]
      · simp only [insertDesc, if_neg h, List.mem_cons, ih]
        tauto

theorem mem_orderByDesc (key : α → Nat) (a : α) (l : List α) :
    a ∈ orderByDesc key l ↔ a ∈ l := by
  induction l with
  | nil => simp [orderByDesc]
  | cons x xs ih => simp [orderByDesc, mem_insertDesc, ih]

theorem sorted_insertDesc (key : α → Nat) (x : α) (l : List α)
    (h : l.Sorted fun a b => key b ≤ key a) :
    (insertDesc key x l).Sorted fun a b => key b ≤ key a := by
  induction l with
  | nil => simp [insertDesc]
  | cons y ys ih =>
      by_cases hle : key y ≤ key x
      · rw [insertDesc, if_pos hle]
        refine List.sorted_cons.mpr ⟨?_, h⟩
        intro b hb
        rcases List.mem_cons.mp hb with hb | hb
        · exact hb ▸ hle
        · exact le_trans ((List.sorted_cons.mp h).1 b hb) hle
      · rw [insertDesc, if_neg hle]
        have h' := List.sorted_cons.mp h
        refine List.sorted_cons.mpr ⟨?_, ih h'.2⟩
        intro b hb
        rcases (mem_insertDesc key x b ys).mp hb with hb | hb
        · exact hb ▸ le_of_not_le hle
        · exact h'.1 b hb

theorem sorted_orderByDesc (key : α → Nat) (l : List α) :
    (orderByDesc key l).Sorted fun a b => key b ≤ key a := by
  induction l with
  | nil => simp [orderByDesc]
  | cons x xs ih => exact sorted_insertDesc key x _ ih

/-- `PatientConsultation.objects.filter(patient=pv)`: the consultations
matching a (possibly null) patient value. -/
def consultationsOfPatient (db : DB) (pv : Option Nat) : List PatientConsultation :=
  db.consultations.filter fun c => pv == some c.patient_id

/-- Nested-route override: `validated_data["patient_id"] =
self.kwargs.get("patient_pk")` when the key is in the kwargs. -/
def apply_patient_pk (req : Request) (vd : ValidatedData) : ValidatedData :=
  match req.patient_pk with
  | some pk => { vd with patient_id := some (some pk) }
  | none => vd

/-- `serializer.create(validated_data)`: a fresh sample row built from the
payload fields and the resolved consultation object. -/
def serializer_create (db : DB) (vd : ValidatedData) (cons : PatientConsultation) :
    PatientSample :=
  { id := db.next_id
    status := vd.status.getD 1
    result := vd.result.getD 1
    patient_id := vd.patient_id.getD none
    consultation_id := some cons.id }

/-- `serializer.update(instance, validated_data)`: apply the partial
payload to the existing sample. -/
def serializer_update (inst : PatientSample) (vd : ValidatedData) : PatientSample :=
  { inst with
    status := vd.status.getD inst.status
    result := vd.result.getD inst.result }

/-- Insert a sample row. -/
def insertSample (db : DB) (s : PatientSample) : DB :=
  { db with samples := s :: db.samples, next_id := db.next_id + 1 }

/-- `instance.patientsampleflow_set.create(...)`: the flow row built for
a sample, stamped with the store clock. -/
def mkFlow (db : DB) (s : PatientSample) (notes : String) (created_by : Nat) :
    PatientSampleFlow :=
  { id := db.next_id
    patient_sample_id := s.id
    status := s.status
    notes := notes
    created_by := created_by
    created_date := db.clock }

/-- Insert a flow row. -/
def insertFlow (db : DB) (f : PatientSampleFlow) : DB :=
  { db with flows := f :: db.flows, next_id := db.next_id + 1, clock := db.clock + 1 }

/-- The body of the create transaction. `sampleOk`/`flowOk` inject a
database failure of the corresponding row insert; a `none` result is a
raised error that `transaction.atomic` answers by rolling back. -/
def create_txn (db : DB) (vd : ValidatedData) (cons : PatientConsultation)
    (notes : String) (u : User) (sampleOk flowOk : Bool) :
    Option (DB × PatientSample) :=
  if sampleOk then
    let inst := serializer_create db vd cons
    let db1 := insertSample db inst
    if flowOk then
      some (insertFlow db1 (mkFlow db1 inst notes u.id), inst)
    else none
  else none


/-- The sample table after `serializer.update` replaced the row of
`inst0` by `inst`. -/
def update_db1 (db : DB) (inst0 inst : PatientSample) : DB :=
  { db with samples := db.samples.map fun s => if s.id == inst0.id then inst else s }

/-- The body of the update transaction, mirrored from `perform_update`. -/
def update_txn (db : DB) (inst0 : PatientSample) (vd : ValidatedData)
    (notes : String) (u : User) (updateOk flowOk : Bool) :
    Option (DB × PatientSample) :=
  if updateOk then
    let inst := serializer_update inst0 vd
    if flowOk then
      some (insertFlow (update_db1 db inst0 inst)
        (mkFlow (update_db1 db inst0 inst) inst notes u.id), inst)
    else none
  else none

/-- Consultation linkage resolution of `perform_create`: the patient
fallback when the `consultation_id` key is absent, the direct lookup when
it is present. -/
def resolve_consultation (db : DB) (vd : ValidatedData) :
    Except ValidationError PatientConsultation :=
  match vd.consultation_id with
  | none =>
      match (orderByDesc (fun c => c.id)
          (consultationsOfPatient db (vd.patient_id.getD none))).head? with
      | none => .error ⟨"patient_id", "Invalid id/ No consultation done"⟩
      | some c => .ok c
  | some cv =>
      match cv.bind fun cid => db.consultations.find? fun c => c.id == cid with
      | none => .error ⟨"consultation_id", "Invalid id"⟩
      | some c => .ok c

/-- `PatientSampleViewSet.perform_create`. Returns the post-request store
(unchanged on any error, by rollback) and the outcome. -/
def perform_create (req : Request) (vd0 : ValidatedData) (sampleOk flowOk : Bool)
    (db : DB) : DB × Except WriteError PatientSample :=
  let vd1 := apply_patient_pk req vd0
  let notes := vd1.notes.getD "create"
  let vd := { vd1 with notes := none }
  if !(pyTruthy vd.patient_id) && !(pyTruthy vd.consultation_id) then
    (db, .error (.validation
      ⟨"non_field_errors", "Either of patient_id or consultation_id is required"⟩))
  else
    match resolve_consultation db vd with
    | .error e => (db, .error (.validation e))
    | .ok cons =>
        match create_txn db vd cons notes req.user sampleOk flowOk with
        | some r => (r.1, .ok r.2)
        | none => (db, .error .databaseError)

/-- `PatientSampleViewSet.perform_update`. -/
def perform_update (u : User) (inst0 : PatientSample) (vd0 : ValidatedData)
    (updateOk flowOk : Bool) (db : DB) : DB × Except WriteError PatientSample :=
  let notes := vd0.notes.getD ("updated by " ++ u.username)
  let vd := { vd0 with notes := none }
  match update_txn db inst0 vd notes u updateOk flowOk with
  | some r => (r.1, .ok r.2)
  | none => (db, .error .databaseError)

/-- The three serializers the viewset dispatches between. -/
inductive SerializerKind where
  | PatientSampleSerializer
  | PatientSampleReadSerializer
  | PatientSamplePatchSerializer
deriving DecidableEq

/-- The viewset attribute `serializer_class = PatientSampleSerializer`. -/
def serializer_class : SerializerKind := .PatientSampleSerializer

/-- `PatientSampleViewSet.get_serializer_class`, keyed on
`self.request.method`. -/
def get_serializer_class (method : String) : SerializerKind :=
  if method == "GET" then .PatientSampleReadSerializer
  else if method == "PATCH" then .PatientSamplePatchSerializer
  else serializer_class

/-- The viewset attribute `http_method_names`. -/
def http_method_names : List String := ["get", "post", "patch", "delete"]

/-- The `Prefetch` of `patientsampleflow_set` ordered by
`-created_date`, attached per sample. -/
def flow_prefetched (db : DB) (s : PatientSample) : List PatientSampleFlow :=
  orderByDesc (fun f => f.created_date)
    (db.flows.filter fun f => f.patient_sample_id == s.id)

/-- The class-level queryset: all samples ordered by `-id`. -/
def base_queryset (db : DB) : List PatientSample :=
  orderByDesc (fun s => s.id) db.samples

/-- `PatientSampleViewSet.get_queryset`: the base queryset, restricted to
one patient when the nested route supplies `patient_pk`. -/
def get_queryset (patient_pk : Option Nat) (db : DB) : List PatientSample :=
  match patient_pk with
  | some pk => (base_queryset db).filter fun s => s.patient_id == some pk
  | none => base_queryset db

theorem head_orderByDesc_max (key : α → Nat) (l : List α) (c : α)
    (h : (orderByDesc key l).head? = some c) :
    c ∈ l ∧ ∀ a ∈ l, key a ≤ key c := by
  have hs := sorted_orderByDesc key l
  rcases he : orderByDesc key l with _ | ⟨x, xs⟩
  · rw [he] at h; cases h
  · rw [he] at h
    have hxc : x = c := by injection h
    rw [he, hxc] at hs
    have h1 := List.sorted_cons.mp hs
    have hcm : c ∈ orderByDesc key l := by
      rw [he, hxc]; exact List.mem_cons_self c xs
    refine ⟨(mem_orderByDesc key c l).mp hcm, ?_⟩
    intro a ha
    have hmem : a ∈ orderByDesc key l := (mem_orderByDesc key a l).mpr ha
    rw [he, hxc] at hmem
    rcases List.mem_cons.mp hmem with h2 | h2
    · exact h2 ▸ le_refl _
    · exact h1.1 a h2

theorem create_txn_ok (db : DB) (vd : ValidatedData) (cons : PatientConsultation)
    (notes : String) (u : User) (a b : Bool) (db' : DB) (inst : PatientSample)
    (h : create_txn db vd cons notes u a b = some (db', inst)) :
    a = true ∧ b = true ∧ inst = serializer_create db vd cons ∧
      db' = insertFlow (insertSample db inst)
        (mkFlow (insertSample db inst) inst notes u.id) := by
  cases a <;> cases b <;> simp [create_txn] at h
  exact ⟨rfl, rfl, h.2.symm, by rw [← h.2, ← h.1]⟩

theorem create_txn_fail (db : DB) (vd : ValidatedData) (cons : PatientConsultation)
    (notes : String) (u : User) (a b : Bool) (h : a = false ∨ b = false) :
    create_txn db vd cons notes u a b = none := by
  rcases h with h | h <;> subst h
  · cases b <;> simp [create_txn]
  · cases a <;> simp [create_txn]

theorem update_txn_ok (db : DB) (inst0 : PatientSample) (vd : ValidatedData)
    (notes : String) (u : User) (a b : Bool) (db' : DB) (inst : PatientSample)
    (h : update_txn db inst0 vd notes u a b = some (db', inst)) :
    a = true ∧ b = true ∧ inst = serializer_update inst0 vd ∧
      db' = insertFlow (update_db1 db inst0 inst)
        (mkFlow (update_db1 db inst0 inst) inst notes u.id) := by
  cases a <;> cases b <;> simp [update_txn] at h
  exact ⟨rfl, rfl, h.2.symm, by rw [← h.2, ← h.1]⟩

theorem update_txn_fail (db : DB) (inst0 : PatientSample) (vd : ValidatedData)
    (notes : String) (u : User) (a b : Bool) (h : a = false ∨ b = false) :
    update_txn db inst0 vd notes u a b = none := by
  rcases h with h | h <;> subst h
  · cases b <;> simp [update_txn]
  · cases a <;> simp [update_txn]

theorem perform_create_ok (req : Request) (vd0 : ValidatedData) (a b : Bool)
    (db db' : DB) (inst : PatientSample)
    (h : perform_create req vd0 a b db = (db', Except.ok inst)) :
    a = true ∧ b = true ∧
    ∃ cons, resolve_consultation db { apply_patient_pk req vd0 with notes := none } =
        Except.ok cons ∧
      inst = serializer_create db { apply_patient_pk req vd0 with notes := none } cons ∧
      db' = insertFlow (insertSample db inst)
        (mkFlow (insertSample db inst) inst
          ((apply_patient_pk req vd0).notes.getD "create") req.user.id) := by
  simp only [perform_create] at h
  split at h
  · cases h
  · split at h
    · cases h
    · rename_i cons hres
      split at h
      · rename_i r htxn
        obtain ⟨hdb, hok⟩ := Prod.mk.injEq .. ▸ h
        injection hok with hp
        subst hp
        subst hdb
        obtain ⟨ha, hb, hi, hd⟩ := create_txn_ok _ _ _ _ _ _ _ _ _ htxn
        exact ⟨ha, hb, cons, hres, hi, hd⟩
      · cases h

theorem perform_update_ok (u : User) (inst0 : PatientSample) (vd0 : ValidatedData)
    (a b : Bool) (db db' : DB) (inst : PatientSample)
    (h : perform_update u inst0 vd0 a b db = (db', Except.ok inst)) :
    a = true ∧ b = true ∧ inst = serializer_update inst0 { vd0 with notes := none } ∧
      db' = insertFlow (update_db1 db inst0 inst)
        (mkFlow (update_db1 db inst0 inst) inst
          (vd0.notes.getD ("updated by " ++ u.username)) u.id) := by
  simp only [perform_update] at h
  split at h
  · rename_i r htxn
    obtain ⟨hdb, hok⟩ := Prod.mk.injEq .. ▸ h
    injection hok with hp
    subst hp
    subst hdb
    obtain ⟨ha, hb, hi, hd⟩ := update_txn_ok _ _ _ _ _ _ _ _ _ htxn
    exact ⟨ha, hb, hi, hd⟩
  · cases h

theorem perform_create_rollback (req : Request) (vd0 : ValidatedData) (a b : Bool)
    (db : DB) (h : a = false ∨ b = false) :
    (perform_create req vd0 a b db).1 = db := by
  simp only [perform_create]
  split
  · rfl
  · split
    · rfl
    · rw [create_txn_fail _ _ _ _ _ _ _ h]

theorem perform_update_rollback (u : User) (inst0 : PatientSample) (vd0 : ValidatedData)
    (a b : Bool) (db : DB) (h : a = false ∨ b = false) :
    (perform_update u inst0 vd0 a b db).1 = db := by
  simp only [perform_update]
  rw [update_txn_fail _ _ _ _ _ _ _ h]

theorem apply_patient_pk_consultation_id (req : Request) (vd : ValidatedData) :
    (apply_patient_pk req vd).consultation_id = vd.consultation_id := by
  rcases req with ⟨u, _ | pk⟩ <;> rfl

theorem apply_patient_pk_notes (req : Request) (vd : ValidatedData) :
    (apply_patient_pk req vd).notes = vd.notes := by
  rcases req with ⟨u, _ | pk⟩ <;> rfl

theorem apply_patient_pk_strip_notes (req : Request) (vd : ValidatedData)
    (t : Option String) :
    ({ apply_patient_pk req { vd with notes := t } with notes := none } : ValidatedData) =
      { apply_patient_pk req vd with notes := none } := by
  rcases req with ⟨u, _ | pk⟩ <;> rfl

theorem perform_create_eq (req : Request) (vd0 : ValidatedData) (a b : Bool) (db : DB) :
    perform_create req vd0 a b db =
      if !(pyTruthy (apply_patient_pk req vd0).patient_id) &&
          !(pyTruthy (apply_patient_pk req vd0).consultation_id) then
        (db, .error (.validation
          ⟨"non_field_errors", "Either of patient_id or consultation_id is required"⟩))
      else
        match resolve_consultation db { apply_patient_pk req vd0 with notes := none } with
        | .error e => (db, .error (.validation e))
        | .ok cons =>
            match create_txn db { apply_patient_pk req vd0 with notes := none } cons
                ((apply_patient_pk req vd0).notes.getD "create") req.user a b with
            | some r => (r.1, .ok r.2)
            | none => (db, .error .databaseError) := rfl

theorem resolve_consultation_none_ok (db : DB) (vd : ValidatedData)
    (c : PatientConsultation) (hck : vd.consultation_id = none)
    (h : resolve_consultation db vd = Except.ok c) :
    (orderByDesc (fun x => x.id)
      (consultationsOfPatient db (vd.patient_id.getD none))).head? = some c := by
  simp only [resolve_consultation, hck] at h
  split at h
  · cases h
  · rename_i c' hh
    injection h with h
    subst h
    exact hh

theorem resolve_consultation_none_empty (db : DB) (vd : ValidatedData)
    (hck : vd.consultation_id = none)
    (hemp : consultationsOfPatient db (vd.patient_id.getD none) = []) :
    resolve_consultation db vd =
      Except.error ⟨"patient_id", "Invalid id/ No consultation done"⟩ := by
  simp [resolve_consultation, hck, hemp, orderByDesc]

theorem resolve_consultation_some (db : DB) (vd : ValidatedData) (cv : Option Nat)
    (hck : vd.consultation_id = some cv) :
    resolve_consultation db vd =
      match cv.bind fun cid => db.consultations.find? fun x => x.id == cid with
      | none => Except.error ⟨"consultation_id", "Invalid id"⟩
      | some x => Except.ok x := by
  simp only [resolve_consultation, hck]

/-- Claim C2: every successful create and every successful update
persists the sample write together with exactly one new flow entry whose
status equals the sample's post-write status, whose note is the resolved
note and whose author is the requesting actor; and when either row
insert inside the transaction fails, the store is left unchanged. -/
theorem claim_C2 (req : Request) (vd : ValidatedData) (u : User) (inst0 : PatientSample)
    (a b : Bool) (db : DB) :
    (∀ db' inst, perform_create req vd a b db = (db', Except.ok inst) →
      db'.samples = inst :: db.samples ∧
      ∃ f, db'.flows = f :: db.flows ∧ f.status = inst.status ∧
        f.notes = vd.notes.getD "create" ∧ f.created_by = req.user.id) ∧
    (∀ db' inst, perform_update u inst0 vd a b db = (db', Except.ok inst) →
      db'.samples = (db.samples.map fun s => if s.id == inst0.id then inst else s) ∧
      ∃ f, db'.flows = f :: db.flows ∧ f.status = inst.status ∧
        f.notes = vd.notes.getD ("updated by " ++ u.username) ∧ f.created_by = u.id) ∧
    ((a = false ∨ b = false) →
      (perform_create req vd a b db).1 = db ∧ (perform_update u inst0 vd a b db).1 = db) := by
  refine ⟨?_, ?_, ?_⟩
  · intro db' inst hok
    obtain ⟨ha, hb, cons, hres, hinst, hdb⟩ := perform_create_ok _ _ _ _ _ _ _ hok
    subst hdb
    refine ⟨rfl, _, rfl, rfl, ?_, rfl⟩
    simp [mkFlow, apply_patient_pk_notes]
  · intro db' inst hok
    obtain ⟨ha, hb, hinst, hdb⟩ := perform_update_ok _ _ _ _ _ _ _ _ hok
    subst hdb
    exact ⟨rfl, _, rfl, rfl, rfl, rfl⟩
  · intro h
    exact ⟨perform_create_rollback _ _ _ _ _ h, perform_update_rollback _ _ _ _ _ _ h⟩

/-- Claim C3: when, after the nested-route override, neither a patient
identifier nor a consultation identifier is (truthily) present, create
fails with the non-field validation error and the store is unchanged. -/
theorem claim_C3 (req : Request) (vd : ValidatedData) (a b : Bool) (db : DB)
    (hp : pyTruthy (apply_patient_pk req vd).patient_id = false)
    (hc : pyTruthy vd.consultation_id = false) :
    perform_create req vd a b db =
      (db, .error (.validation
        ⟨"non_field_errors", "Either of patient_id or consultation_id is required"⟩)) := by
  have hc2 : pyTruthy (apply_patient_pk req vd).consultation_id = false := by
    rw [apply_patient_pk_consultation_id]; exact hc
  rw [perform_create_eq, if_pos (by rw [hp, hc2]; rfl)]

/-- Claim C7: a create through the nested patient-scoped route behaves
exactly as a create whose payload patient identifier was replaced by the
route's parent-record identifier before validation and resolution. -/
theorem claim_C7 (u : User) (pk : Nat) (vd : ValidatedData) (a b : Bool) (db : DB) :
    perform_create ⟨u, some pk⟩ vd a b db =
      perform_create ⟨u, none⟩ { vd with patient_id := some (some pk) } a b db := rfl

/-- Claim C8: GET requests use the read serializer, PATCH the restricted
patch serializer, POST and DELETE the full serializer, and PUT is not
among the supported request methods. -/
theorem claim_C8 :
    get_serializer_class "GET" = SerializerKind.PatientSampleReadSerializer ∧
    get_serializer_class "PATCH" = SerializerKind.PatientSamplePatchSerializer ∧
    get_serializer_class "POST" = SerializerKind.PatientSampleSerializer ∧
    get_serializer_class "DELETE" = SerializerKind.PatientSampleSerializer ∧
    "get" ∈ http_method_names ∧ "post" ∈ http_method_names ∧
    "patch" ∈ http_method_names ∧ "delete" ∈ http_method_names ∧
    "put" ∉ http_method_names := by
  refine ⟨rfl, rfl, rfl, rfl, ?_, ?_, ?_, ?_, ?_⟩ <;> decide

/-- Claim C9: the default list is ordered by descending sample id, each
sample's prefetched flow list is ordered by descending creation time,
the nested patient route restricts the list to that patient's samples,
and the unrestricted list is the full sample table. -/
theorem claim_C9 (db : DB) (pk : Nat) (s : PatientSample) :
    (base_queryset db).Sorted (fun x y => y.id ≤ x.id) ∧
    (flow_prefetched db s).Sorted (fun x y => y.created_date ≤ x.created_date) ∧
    (s ∈ get_queryset (some pk) db ↔ s ∈ base_queryset db ∧ s.patient_id = some pk) ∧
    (∀ t, t ∈ base_queryset db ↔ t ∈ db.samples) ∧
    get_queryset none db = base_queryset db := by
  refine ⟨sorted_orderByDesc _ _, sorted_orderByDesc _ _, ?_, ?_, rfl⟩
  · simp [get_queryset, List.mem_filter]
  · intro t
    exact mem_orderByDesc _ _ _

/-- Claim C10: the patient fallback is chosen by key absence, not value:
a `consultation_id` key present with a null value (alongside a valid
patient identifier) takes the direct-lookup branch and fails with the
consultation-field error, and a zero patient identifier with no
consultation key is treated as missing and raises the non-field error. -/
theorem claim_C10 (u : User) (vd : ValidatedData) (a b : Bool) (db : DB) (p : Nat) :
    (vd.consultation_id = some none → vd.patient_id = some (some p) → p ≠ 0 →
      perform_create ⟨u, none⟩ vd a b db =
        (db, .error (.validation ⟨"consultation_id", "Invalid id"⟩))) ∧
    (vd.consultation_id = none → vd.patient_id = some (some 0) →
      perform_create ⟨u, none⟩ vd a b db =
        (db, .error (.validation
          ⟨"non_field_errors", "Either of patient_id or consultation_id is required"⟩))) := by
  have happ : apply_patient_pk ⟨u, none⟩ vd = vd := rfl
  constructor
  · intro h1 h2 h3
    have hres : resolve_consultation db ({ vd with notes := none } : ValidatedData) =
        Except.error ⟨"consultation_id", "Invalid id"⟩ := by
      rw [resolve_consultation_some db _ none (by simp [h1])]
      rfl
    rw [perform_create_eq]
    rw [happ, if_neg (by simp [pyTruthy, h1, h2, h3]), hres]
  · intro h1 h2
    rw [perform_create_eq, happ, if_pos (by simp [pyTruthy, h1, h2])]

/-- Counterexample to claim C4 as stated: at a concrete create payload
with a patient who has no consultation, the error message the code
raises is "Invalid id/ No consultation done", which is not the message
"Invalid id / No consultation done" the claim asserts. -/
theorem claim_C4_counterexample :
    perform_create ⟨⟨1, false, 10, 1, 1, "u"⟩, none⟩
        ⟨some (some 7), none, none, none, none⟩ true true ⟨[], [], [], [], 0, 0⟩ =
      (⟨[], [], [], [], 0, 0⟩,
        .error (.validation ⟨"patient_id", "Invalid id/ No consultation done"⟩)) ∧
    ("Invalid id/ No consultation done" = "Invalid id / No consultation done" → False) := by
  exact ⟨rfl, by decide⟩

/-- Claim C4 (amended: the patient-field message reads
"Invalid id/ No consultation done"): with no consultation key and a
truthy patient identifier, a patient with zero consultations makes
create fail with the patient-field error and an unchanged store, and a
successful create resolves the consultation to the patient's
consultation of maximal identifier. -/
theorem claim_C4 (req : Request) (vd : ValidatedData) (a b : Bool) (db : DB)
    (hck : vd.consultation_id = none)
    (hp : pyTruthy (apply_patient_pk req vd).patient_id = true) :
    (consultationsOfPatient db ((apply_patient_pk req vd).patient_id.getD none) = [] →
      perform_create req vd a b db =
        (db, .error (.validation ⟨"patient_id", "Invalid id/ No consultation done"⟩))) ∧
    (∀ db' inst, perform_create req vd a b db = (db', Except.ok inst) →
      ∃ c, c ∈ consultationsOfPatient db ((apply_patient_pk req vd).patient_id.getD none) ∧
        inst.consultation_id = some c.id ∧
        ∀ c' ∈ consultationsOfPatient db ((apply_patient_pk req vd).patient_id.getD none),
          c'.id ≤ c.id) := by
  have hck' : ({ apply_patient_pk req vd with notes := none } : ValidatedData).consultation_id
      = none := by
    show (apply_patient_pk req vd).consultation_id = none
    rw [apply_patient_pk_consultation_id]; exact hck
  constructor
  · intro hemp
    have hres := resolve_consultation_none_empty db
      { apply_patient_pk req vd with notes := none } hck' hemp
    rw [perform_create_eq, if_neg (by rw [hp]; simp), hres]
  · intro db' inst hok
    obtain ⟨ha, hb, cons, hres, hinst, hdb⟩ := perform_create_ok _ _ _ _ _ _ _ hok
    have hh := resolve_consultation_none_ok db _ cons hck' hres
    obtain ⟨hmem, hmax⟩ := head_orderByDesc_max _ _ _ hh
    exact ⟨cons, hmem, by rw [hinst]; rfl, hmax⟩

/-- Claim C5: when the payload supplies a (truthy) consultation
identifier, the consultation is looked up directly by that identifier:
if no consultation with that identifier exists, create fails with the
consultation-field message "Invalid id" and an unchanged store, and on
success the sample is linked to the directly found consultation. -/
theorem claim_C5 (req : Request) (vd : ValidatedData) (a b : Bool) (db : DB) (c : Nat)
    (hc : vd.consultation_id = some (some c)) (hc0 : c ≠ 0) :
    ((∀ x ∈ db.consultations, x.id ≠ c) →
      perform_create req vd a b db =
        (db, .error (.validation ⟨"consultation_id", "Invalid id"⟩))) ∧
    (∀ x, (db.consultations.find? fun y => y.id == c) = some x →
      ∀ db' inst, perform_create req vd a b db = (db', Except.ok inst) →
        inst.consultation_id = some x.id) := by
  have hc' : ({ apply_patient_pk req vd with notes := none } : ValidatedData).consultation_id
      = some (some c) := by
    show (apply_patient_pk req vd).consultation_id = some (some c)
    rw [apply_patient_pk_consultation_id]; exact hc
  have hcond : (!(pyTruthy (apply_patient_pk req vd).patient_id) &&
      !(pyTruthy (apply_patient_pk req vd).consultation_id)) = false := by
    rw [apply_patient_pk_consultation_id, hc]
    simp [pyTruthy, hc0]
  constructor
  · intro hnone
    have hfind : (db.consultations.find? fun y => y.id == c) = none :=
      List.find?_eq_none.mpr fun x hx => by simp [hnone x hx]
    rw [perform_create_eq, if_neg (by rw [hcond]; simp),
      resolve_consultation_some db _ (some c) hc']
    simp [hfind]
  · intro x hfind db' inst hok
    obtain ⟨ha, hb, cons, hres, hinst, hdb⟩ := perform_create_ok _ _ _ _ _ _ _ hok
    rw [resolve_consultation_some db _ (some c) hc'] at hres
    simp only [Option.some_bind] at hres
    rw [hfind] at hres
    have hcx : cons = x := by
      simp at hres
      exact hres.symm
    subst hcx
    rw [hinst]; rfl

/-- Claim C6: when the payload has no notes key, the flow entry note
defaults to "create" on create and to "updated by " followed by the
requesting actor's username on update; a supplied notes value is used
instead, and, being popped from the payload, never reaches the sample
row: two successful creates (or updates) of payloads differing only in
notes persist the same sample. -/
theorem claim_C6 (req : Request) (vd : ValidatedData) (u : User) (inst0 : PatientSample)
    (a b : Bool) (db : DB) :
    (vd.notes = none → ∀ db' inst, perform_create req vd a b db = (db', Except.ok inst) →
      ∃ f, db'.flows = f :: db.flows ∧ f.notes = "create") ∧
    (vd.notes = none → ∀ db' inst, perform_update u inst0 vd a b db = (db', Except.ok inst) →
      ∃ f, db'.flows = f :: db.flows ∧ f.notes = "updated by " ++ u.username) ∧
    (∀ s, vd.notes = some s →
      (∀ db' inst, perform_create req vd a b db = (db', Except.ok inst) →
        ∃ f, db'.flows = f :: db.flows ∧ f.notes = s) ∧
      (∀ db' inst, perform_update u inst0 vd a b db = (db', Except.ok inst) →
        ∃ f, db'.flows = f :: db.flows ∧ f.notes = s)) ∧
    (∀ t db1 i1 db2 i2,
      perform_create req vd a b db = (db1, Except.ok i1) →
      perform_create req { vd with notes := t } a b db = (db2, Except.ok i2) →
      i1 = i2) ∧
    (∀ t db1 i1 db2 i2,
      perform_update u inst0 vd a b db = (db1, Except.ok i1) →
      perform_update u inst0 { vd with notes := t } a b db = (db2, Except.ok i2) →
      i1 = i2) := by
  refine ⟨?_, ?_, ?_, ?_, ?_⟩
  · intro hn db' inst hok
    obtain ⟨ha, hb, cons, hres, hinst, hdb⟩ := perform_create_ok _ _ _ _ _ _ _ hok
    subst hdb
    exact ⟨_, rfl, by simp [mkFlow, apply_patient_pk_notes, hn]⟩
  · intro hn db' inst hok
    obtain ⟨ha, hb, hinst, hdb⟩ := perform_update_ok _ _ _ _ _ _ _ _ hok
    subst hdb
    exact ⟨_, rfl, by simp [mkFlow, hn]⟩
  · intro s hn
    constructor
    · intro db' inst hok
      obtain ⟨ha, hb, cons, hres, hinst, hdb⟩ := perform_create_ok _ _ _ _ _ _ _ hok
      subst hdb
      exact ⟨_, rfl, by simp [mkFlow, apply_patient_pk_notes, hn]⟩
    · intro db' inst hok
      obtain ⟨ha, hb, hinst, hdb⟩ := perform_update_ok _ _ _ _ _ _ _ _ hok
      subst hdb
      exact ⟨_, rfl, by simp [mkFlow, hn]⟩
  · intro t db1 i1 db2 i2 h1 h2
    obtain ⟨_, _, cons1, hres1, hinst1, _⟩ := perform_create_ok _ _ _ _ _ _ _ h1
    obtain ⟨_, _, cons2, hres2, hinst2, _⟩ := perform_create_ok _ _ _ _ _ _ _ h2
    rw [apply_patient_pk_strip_notes] at hres2 hinst2
    have hcc : cons1 = cons2 := by
      rw [hres1] at hres2
      injection hres2
    rw [hinst1, hinst2, hcc]
  · intro t db1 i1 db2 i2 h1 h2
    obtain ⟨_, _, hinst1, _⟩ := perform_update_ok _ _ _ _ _ _ _ _ h1
    obtain ⟨_, _, hinst2, _⟩ := perform_update_ok _ _ _ _ _ _ _ _ h2
    rw [hinst1, hinst2]

/-- A concrete district-lab-admin actor for witnesses. -/
def uW : User := ⟨1, false, 25, 5, 3, "labtech1"⟩

/-- A concrete facility created by `uW`. -/
def facW : Facility := ⟨10, 1, 5, 3, "Central"⟩

/-- A concrete consultation of patient 7 at `facW`. -/
def consW : PatientConsultation := ⟨42, 7, 10⟩

/-- A concrete store holding `facW` and `consW`. -/
def dbW : DB := ⟨[facW], [consW], [], [], 100, 0⟩

/-- A concrete sample linked to `consW`. -/
def sW : PatientSample := ⟨1, 2, 1, some 7, some 42⟩

/-- A concrete create payload naming patient 7 and no consultation. -/
def vdW : ValidatedData := ⟨some (some 7), none, none, some 2, some 1⟩

/-- A concrete request by `uW` outside the nested route. -/
def reqW : Request := ⟨uW, none⟩

/-- The sample `perform_create reqW vdW` persists. -/
def instW : PatientSample := ⟨100, 2, 1, some 7, some 42⟩

/-- The store after that create. -/
def dbW2 : DB :=
  insertFlow (insertSample dbW instW) (mkFlow (insertSample dbW instW) instW "create" 1)

theorem claim_C1_witness :
    sW ∈ filter_queryset uW dbW [sW] :=
  ((claim_C1 uW dbW [sW] sW).2 rfl).mpr
    ⟨List.mem_singleton.mpr rfl, facW, rfl, Or.inl rfl⟩

theorem claim_C2_witness :
    (perform_create reqW vdW true false dbW).1 = dbW ∧
    (perform_update uW sW vdW true false dbW).1 = dbW :=
  (claim_C2 reqW vdW uW sW true false dbW).2.2 (Or.inr rfl)

theorem claim_C3_witness :
    perform_create reqW ⟨none, none, none, none, none⟩ true true dbW =
      (dbW, .error (.validation
        ⟨"non_field_errors", "Either of patient_id or consultation_id is required"⟩)) :=
  claim_C3 reqW ⟨none, none, none, none, none⟩ true true dbW rfl rfl

theorem claim_C4_witness :
    perform_create reqW ⟨some (some 9), none, none, none, none⟩ true true dbW =
      (dbW, .error (.validation ⟨"patient_id", "Invalid id/ No consultation done"⟩)) :=
  (claim_C4 reqW ⟨some (some 9), none, none, none, none⟩ true true dbW rfl rfl).1 rfl

theorem claim_C5_witness :
    perform_create reqW ⟨some (some 7), some (some 99), none, none, none⟩ true true dbW =
      (dbW, .error (.validation ⟨"consultation_id", "Invalid id"⟩)) :=
  (claim_C5 reqW ⟨some (some 7), some (some 99), none, none, none⟩ true true dbW 99
    rfl (by decide)).1 (by decide)

theorem claim_C6_witness :
    ∃ f, dbW2.flows = f :: dbW.flows ∧ f.notes = "create" :=
  (claim_C6 reqW vdW uW sW true true dbW).1 rfl dbW2 instW rfl

theorem claim_C10_witness :
    perform_create ⟨uW, none⟩ ⟨some (some 7), some none, none, none, none⟩ true true dbW =
      (dbW, .error (.validation ⟨"consultation_id", "Invalid id"⟩)) :=
  (claim_C10 uW ⟨some (some 7), some none, none, none, none⟩ true true dbW 7).1
    rfl rfl (by decide)
